import Mathlib

/-!
Verification of the query-routing assistant (classifier, router, history
store, recommendation engine, progress tracker, LLM gateway).

The Python sources are shallowly embedded: Python strings are modelled as
lists of Unicode code points (`List Nat`), dictionaries backed by JSON
records as Lean structures, the per-session file store as a function from
session id to an optional session record, and the LLM / network boundary as
explicit outcome parameters.
-/

namespace DeployLlm

/-! ### Python string primitives (code-point model)

`str.strip()` removes leading and trailing whitespace; `str.lower()` maps
the code points of uppercase letters (ASCII range modelled) to lowercase.
Substring containment (`"x" in s`) is `List.IsInfix`. -/

/-- Python whitespace (the ASCII characters stripped by `str.strip()`). -/
def pyIsSpace (c : Nat) : Bool :=
  c == 32 || c == 9 || c == 10 || c == 13 || c == 11 || c == 12

/-- Python `str.lower` on a single code point (ASCII letters). -/
def pyLowerChar (c : Nat) : Nat :=
  if 65 ≤ c ∧ c ≤ 90 then c + 32 else c

/-- Python `str.lower` on a string. -/
def pyLower (s : List Nat) : List Nat := s.map pyLowerChar

/-- Python `str.strip()` on a string. -/
def pyStrip (s : List Nat) : List Nat :=
  ((s.dropWhile pyIsSpace).reverse.dropWhile pyIsSpace).reverse

/-- Code points of a Lean string literal. -/
def strToCodes (s : String) : List Nat := s.data.map Char.toNat

/-! ### Classifier (`src/rag/classifier.py`, `classify_query`) -/

/-- The three query categories. -/
inductive QueryType
  | tracking
  | learning
  | recommendation
deriving DecidableEq, Repr

/-- Code points of the pattern "tracking". -/
def trackingCodes : List Nat := strToCodes "tracking"

/-- Code points of the pattern "recommendation". -/
def recommendationCodes : List Nat := strToCodes "recommendation"

/-- The response-parsing step of `classify_query` (classifier.py lines
27-35): `response.strip().lower()`, then substring checks in priority
order, defaulting to `learning`. The raw LLM response is the argument. -/
def classifyResponse (response : List Nat) : QueryType :=
  let r := pyLower (pyStrip response)
  if trackingCodes <:+: r then .tracking
  else if recommendationCodes <:+: r then .recommendation
  else .learning

/-- `classify_query` restricted to its pure parsing of the raw LLM
response, on Lean strings. -/
def classify_query (response : String) : QueryType :=
  classifyResponse (strToCodes response)

/-! Auxiliary lemmas: stripping whitespace does not change whether a
whitespace-free nonempty pattern occurs as a substring, and `strip`
commutes with `lower`. -/

theorem sub_of_dropWhile {α : Type} {m l : List α} {p : α → Bool}
    (h : m <:+: l.dropWhile p) : m <:+: l :=
  h.trans (List.dropWhile_suffix p).isInfix

theorem sub_dropWhile_iff {α : Type} {m l : List α} {p : α → Bool}
    (hm : m ≠ []) (hc : ∀ c ∈ m, p c = false) :
    m <:+: l.dropWhile p ↔ m <:+: l := by
  constructor
  · exact sub_of_dropWhile
  · intro h
    induction l with
    | nil => simpa using h
    | cons a t ih =>
      by_cases hp : p a
      · rw [List.dropWhile_cons_of_pos hp]
        rcases List.infix_cons_iff.mp h with hpre | htail
        · cases m with
          | nil => exact absurd rfl hm
          | cons d m' =>
            have hd : d = a := (List.cons_prefix_cons.mp hpre).1
            have : p d = false := hc d (List.mem_cons_self d m')
            rw [hd, hp] at this
            exact absurd this (by simp)
        · exact ih htail
      · rwa [List.dropWhile_cons_of_neg hp]

theorem sub_reverse_iff {α : Type} {m l : List α} :
    m <:+: l.reverse ↔ m.reverse <:+: l := by
  constructor
  · rintro ⟨s, t, h⟩
    refine ⟨t.reverse, s.reverse, ?_⟩
    have := congrArg List.reverse h
    simpa [List.reverse_append, List.append_assoc] using this
  · rintro ⟨s, t, h⟩
    refine ⟨t.reverse, s.reverse, ?_⟩
    have := congrArg List.reverse h
    simpa [List.reverse_append, List.append_assoc] using this

theorem sub_pyStrip_iff {m l : List Nat}
    (hm : m ≠ []) (hc : ∀ c ∈ m, pyIsSpace c = false) :
    m <:+: pyStrip l ↔ m <:+: l := by
  have hm' : m.reverse ≠ [] := by simpa using hm
  have hc' : ∀ c ∈ m.reverse, pyIsSpace c = false := by
    intro c hcmem
    exact hc c (List.mem_reverse.mp hcmem)
  unfold pyStrip
  rw [sub_reverse_iff, sub_dropWhile_iff hm' hc', ← sub_reverse_iff,
    List.reverse_reverse, sub_dropWhile_iff hm hc]

theorem pyIsSpace_pyLowerChar (c : Nat) :
    pyIsSpace (pyLowerChar c) = pyIsSpace c := by
  unfold pyLowerChar
  by_cases h : 65 ≤ c ∧ c ≤ 90
  · rw [if_pos h]
    have h1 : pyIsSpace c = false := by
      unfold pyIsSpace
      simp only [Bool.or_eq_false_iff, beq_eq_false_iff_ne]
      omega
    have h2 : pyIsSpace (c + 32) = false := by
      unfold pyIsSpace
      simp only [Bool.or_eq_false_iff, beq_eq_false_iff_ne]
      omega
    rw [h1, h2]
  · rw [if_neg h]

theorem pyLower_pyStrip (l : List Nat) :
    pyLower (pyStrip l) = pyStrip (pyLower l) := by
  unfold pyLower pyStrip
  have hdw : ∀ t : List Nat,
      (t.map pyLowerChar).dropWhile pyIsSpace
        = (t.dropWhile pyIsSpace).map pyLowerChar := by
    intro t
    rw [List.dropWhile_map]
    have hfun : (pyIsSpace ∘ pyLowerChar) = pyIsSpace := by
      funext c
      exact pyIsSpace_pyLowerChar c
    rw [hfun]
  rw [hdw, ← List.map_reverse, hdw, List.map_reverse]

theorem sub_lower_strip_iff {m l : List Nat}
    (hm : m ≠ []) (hc : ∀ c ∈ m, pyIsSpace c = false) :
    m <:+: pyLower (pyStrip l) ↔ m <:+: pyLower l := by
  rw [pyLower_pyStrip]
  exact sub_pyStrip_iff hm hc

/-- C1: for every raw classifier response `r`, the parse returns
`tracking` when the lowercased `r` contains "tracking"; otherwise
`recommendation` when it contains "recommendation"; otherwise `learning`;
and the result is always exactly one of the three categories. -/
theorem classify_query_cases (r : String) :
    (trackingCodes <:+: pyLower (strToCodes r) →
      classify_query r = .tracking) ∧
    (¬ trackingCodes <:+: pyLower (strToCodes r) →
      recommendationCodes <:+: pyLower (strToCodes r) →
      classify_query r = .recommendation) ∧
    (¬ trackingCodes <:+: pyLower (strToCodes r) →
      ¬ recommendationCodes <:+: pyLower (strToCodes r) →
      classify_query r = .learning) ∧
    (classify_query r = .tracking ∨ classify_query r = .recommendation ∨
      classify_query r = .learning) := by
  have htr : ∀ l : List Nat,
      trackingCodes <:+: pyLower (pyStrip l) ↔ trackingCodes <:+: pyLower l := by
    intro l
    exact sub_lower_strip_iff (by decide) (by decide)
  have hre : ∀ l : List Nat,
      recommendationCodes <:+: pyLower (pyStrip l)
        ↔ recommendationCodes <:+: pyLower l := by
    intro l
    exact sub_lower_strip_iff (by decide) (by decide)
  unfold classify_query classifyResponse
  set l := strToCodes r with hl
  refine ⟨?_, ?_, ?_, ?_⟩
  · intro h
    rw [if_pos ((htr l).mpr h)]
  · intro h1 h2
    rw [if_neg (fun hcon => h1 ((htr l).mp hcon)),
      if_pos ((hre l).mpr h2)]
  · intro h1 h2
    rw [if_neg (fun hcon => h1 ((htr l).mp hcon)),
      if_neg (fun hcon => h2 ((hre l).mp hcon))]
  · by_cases h1 : trackingCodes <:+: pyLower (pyStrip l)
    · rw [if_pos h1]
      exact Or.inl rfl
    · rw [if_neg h1]
      by_cases h2 : recommendationCodes <:+: pyLower (pyStrip l)
      · rw [if_pos h2]
        exact Or.inr (Or.inl rfl)
      · rw [if_neg h2]
        exact Or.inr (Or.inr rfl)

/-- C1 witness: the theorem applied at the concrete response
" Tracking.\n", whose lowercasing contains "tracking". -/
theorem classify_query_cases_witness :
    classify_query " Tracking.\n" = .tracking :=
  (classify_query_cases " Tracking.\n").1 (by decide)

/-! ### History store (`src/rag/history.py`, `ChatHistory`)

One JSON file per session; the store is modelled as a map from session id
to an optional session record.  `datetime.now()` is modelled by an explicit
`now : Nat` argument. -/

/-- A chat message as written by `save_message` (history.py lines 54-62).
`metadata = none` models the key being absent. -/
structure Message where
  timestamp : Nat
  query : String
  answer : String
  type : String
  metadata : Option String
deriving DecidableEq, Repr

/-- One session's JSON record (history.py lines 47-51). -/
structure SessionRec where
  session_id : String
  created_at : Nat
  messages : List Message
  last_updated : Nat
deriving DecidableEq, Repr

/-- The storage directory: one optional record per session id. -/
def Store : Type := String → Option SessionRec

/-- The messages currently stored for a session (empty if absent). -/
def sessionMessages (store : Store) (sid : String) : List Message :=
  match store sid with
  | none => []
  | some r => r.messages

/-- `ChatHistory.save_message` (history.py lines 22-69): load or create the
session record, append one message, update `last_updated`, write back. -/
def save_message (store : Store) (sid query answer query_type : String)
    (metadata : Option String) (now : Nat) : Store :=
  let r0 : SessionRec :=
    match store sid with
    | some r => r
    | none =>
      { session_id := sid, created_at := now, messages := [],
        last_updated := now }
  let msg : Message :=
    { timestamp := now, query := query, answer := answer,
      type := query_type, metadata := metadata }
  let r1 : SessionRec :=
    { r0 with messages := r0.messages ++ [msg], last_updated := now }
  fun s => if s = sid then some r1 else store s

/-- `ChatHistory.get_history` (history.py lines 71-95).  `limit` is the
optional integer argument; the Python guard `if limit:` is false both for
`None` and for `0`.  `messages[-k:]` for `k ≥ 1` is `drop (length - k)`. -/
def get_history (store : Store) (sid : String) (limit : Option Nat) :
    List Message :=
  match store sid with
  | none => []
  | some r =>
    match limit with
    | none => r.messages
    | some k =>
      if k = 0 then r.messages
      else r.messages.drop (r.messages.length - k)

/-- Truncation of an answer for the conversation window (history.py lines
123-125): `answer[:500] + "..."` when `len(answer) > 500`.  Python string
length and slicing count code points, i.e. the character list of the
string. -/
def truncAnswer (a : String) : String :=
  if a.data.length > 500 then String.mk (a.data.take 500) ++ "..." else a

/-- The two lines contributed by one message to the conversation context
(history.py lines 119-127). -/
def renderMessage (m : Message) : List String :=
  ["\nUser: " ++ m.query, "Dico: " ++ truncAnswer m.answer]

/-- Closing line of the conversation context (history.py line 129). -/
def contextFooter : String :=
  "\n---\nPERTANYAAN SAAT INI MUNGKIN TERKAIT DENGAN PERCAKAPAN DI ATAS.\n"

/-- `ChatHistory.get_conversation_context` (history.py lines 97-131). -/
def get_conversation_context (store : Store) (sid : String)
    (last_n : Nat) : String :=
  if (get_history store sid (some last_n)).isEmpty then ""
  else
    String.intercalate "\n"
      (["RIWAYAT PERCAKAPAN SEBELUMNYA:"]
        ++ (get_history store sid (some last_n)).flatMap renderMessage
        ++ [contextFooter])

/-- A sequence of `save_message` calls on one session; each item is
(query, answer, query_type, now). -/
def appendAll (store : Store) (sid : String)
    (items : List (String × String × String × Nat)) : Store :=
  items.foldl
    (fun st it => save_message st sid it.1 it.2.1 it.2.2.1 none it.2.2.2)
    store

/-- The messages that a list of `appendAll` items produces. -/
def msgsOf (items : List (String × String × String × Nat)) : List Message :=
  items.map fun it =>
    { timestamp := it.2.2.2, query := it.1, answer := it.2.1,
      type := it.2.2.1, metadata := none }

/-- The empty store (fresh storage directory). -/
def emptyStore : Store := fun _ => none

theorem sessionMessages_save (store : Store)
    (sid query answer query_type : String) (metadata : Option String)
    (now : Nat) :
    sessionMessages (save_message store sid query answer query_type metadata now) sid
      = sessionMessages store sid
        ++ [{ timestamp := now, query := query, answer := answer,
              type := query_type, metadata := metadata }] := by
  unfold save_message sessionMessages
  cases h : store sid <;> simp [h]

theorem save_message_other (store : Store)
    (sid query answer query_type : String) (metadata : Option String)
    (now : Nat) (s : String) (hs : s ≠ sid) :
    save_message store sid query answer query_type metadata now s = store s := by
  unfold save_message
  simp [hs]

theorem sessionMessages_appendAll (sid : String)
    (items : List (String × String × String × Nat)) (store : Store) :
    sessionMessages (appendAll store sid items) sid
      = sessionMessages store sid ++ msgsOf items := by
  induction items generalizing store with
  | nil => simp [appendAll, msgsOf]
  | cons it rest ih =>
    rw [appendAll, List.foldl_cons]
    have := ih (save_message store sid it.1 it.2.1 it.2.2.1 none it.2.2.2)
    rw [appendAll] at this
    rw [this, sessionMessages_save]
    simp [msgsOf]

theorem get_history_no_limit (store : Store) (sid : String) :
    get_history store sid none = sessionMessages store sid := by
  unfold get_history sessionMessages
  cases h : store sid <;> simp

theorem get_history_limit (store : Store) (sid : String) (k : Nat)
    (hk : 1 ≤ k) :
    get_history store sid (some k)
      = (sessionMessages store sid).drop
          ((sessionMessages store sid).length - k) := by
  unfold get_history sessionMessages
  cases h : store sid with
  | none => simp
  | some r =>
    simp only []
    rw [if_neg (by omega : ¬ k = 0)]

/-- C3: appending a sequence of messages to a fresh session and reading it
back returns them in append order; with `limit = k ≥ 1` exactly the last
`k` of them (all of them when fewer), oldest-first; and reading any
unknown session id returns the empty list. -/
theorem get_history_spec (sid : String)
    (items : List (String × String × String × Nat)) (k : Nat) :
    (get_history (appendAll emptyStore sid items) sid none = msgsOf items) ∧
    (1 ≤ k →
      get_history (appendAll emptyStore sid items) sid (some k)
        = (msgsOf items).drop ((msgsOf items).length - k) ∧
      (get_history (appendAll emptyStore sid items) sid (some k)).length
        = min k (msgsOf items).length) ∧
    (∀ (store : Store) (sid' : String) (limit : Option Nat),
      store sid' = none → get_history store sid' limit = []) := by
  have hmsgs : sessionMessages (appendAll emptyStore sid items) sid
      = msgsOf items := by
    rw [sessionMessages_appendAll]
    simp [sessionMessages, emptyStore]
  refine ⟨?_, ?_, ?_⟩
  · rw [get_history_no_limit, hmsgs]
  · intro hk
    rw [get_history_limit _ _ _ hk, hmsgs]
    refine ⟨rfl, ?_⟩
    rw [List.length_drop]
    omega
  · intro store sid' limit h
    unfold get_history
    rw [h]

/-- C3 witness: the theorem applied to three concrete appends with
`limit = 2`, returning the last two messages oldest-first, plus a concrete
unknown-session read. -/
theorem get_history_spec_witness :
    (get_history
        (appendAll emptyStore "s" [("q1", "a1", "learning", 1),
          ("q2", "a2", "tracking", 2), ("q3", "a3", "learning", 3)])
        "s" (some 2)
      = [{ timestamp := 2, query := "q2", answer := "a2",
            type := "tracking", metadata := none },
         { timestamp := 3, query := "q3", answer := "a3",
            type := "learning", metadata := none }]) ∧
    get_history emptyStore "unknown" (some 5) = [] := by
  constructor
  · exact (((get_history_spec "s" [("q1", "a1", "learning", 1),
      ("q2", "a2", "tracking", 2), ("q3", "a3", "learning", 3)] 2).2.1
      (by decide)).1).trans (by decide)
  · exact (get_history_spec "s" [] 1).2.2 emptyStore "unknown" (some 5) rfl

/-- C10: `get_history` with `limit = 0` behaves like no limit at all
(the Python guard `if limit:` is false for `0`): it returns the entire
message list, which is nonempty for a session with at least one message —
a caller cannot request exactly zero messages. -/
theorem get_history_zero_limit (store : Store) (sid : String) :
    get_history store sid (some 0) = get_history store sid none ∧
    (sessionMessages store sid ≠ [] → get_history store sid (some 0) ≠ []) := by
  have h0 : get_history store sid (some 0) = sessionMessages store sid := by
    unfold get_history sessionMessages
    cases h : store sid <;> simp
  refine ⟨?_, ?_⟩
  · rw [h0, get_history_no_limit]
  · intro hne
    rw [h0]
    exact hne

/-- C10 witness: on a one-message session, `limit = 0` returns the one
message rather than an empty list. -/
theorem get_history_zero_limit_witness :
    get_history (save_message emptyStore "s" "q" "a" "learning" none 1)
        "s" (some 0)
      ≠ [] :=
  (get_history_zero_limit
      (save_message emptyStore "s" "q" "a" "learning" none 1) "s").2
    (by decide)

/-- C4: the conversation window is the empty string for a session with
zero messages; otherwise (for `last_n ≥ 1`) it renders exactly the last
`last_n` messages, each answer of at most 500 characters appearing
unchanged and each longer answer cut to its first 500 characters followed
by the ellipsis marker "...". -/
theorem get_conversation_context_spec (store : Store) (sid : String)
    (last_n : Nat) :
    (sessionMessages store sid = [] →
      get_conversation_context store sid last_n = "") ∧
    (1 ≤ last_n → sessionMessages store sid ≠ [] →
      get_conversation_context store sid last_n
        = String.intercalate "\n"
            (["RIWAYAT PERCAKAPAN SEBELUMNYA:"]
              ++ ((sessionMessages store sid).drop
                    ((sessionMessages store sid).length - last_n)).flatMap
                  (fun m =>
                    ["\nUser: " ++ m.query,
                     "Dico: " ++ (if m.answer.data.length > 500
                        then String.mk (m.answer.data.take 500) ++ "..."
                        else m.answer)])
              ++ [contextFooter])) := by
  constructor
  · intro h
    unfold get_conversation_context
    have hw : get_history store sid (some last_n) = [] := by
      unfold get_history
      unfold sessionMessages at h
      cases hs : store sid with
      | none => simp
      | some r =>
        rw [hs] at h
        have hr : r.messages = [] := h
        cases last_n <;> simp [hr]
    rw [hw]
    rfl
  · intro hn hne
    unfold get_conversation_context
    rw [get_history_limit store sid last_n hn]
    have hlen : 0 < (sessionMessages store sid).length :=
      List.length_pos.mpr hne
    have hwne : (sessionMessages store sid).drop
        ((sessionMessages store sid).length - last_n) ≠ [] := by
      intro hcon
      have hle := List.drop_eq_nil_iff.mp hcon
      omega
    have hwe : ((sessionMessages store sid).drop
        ((sessionMessages store sid).length - last_n)).isEmpty = false := by
      simpa using hwne
    rw [hwe]
    simp only [Bool.false_eq_true, if_false]
    rfl

/-- C4 witness: the theorem applied to a concrete one-message session with
window size 1 (the short answer "a" appears unchanged), plus an
empty-session instance. -/
theorem get_conversation_context_spec_witness :
    (get_conversation_context emptyStore "s" 5 = "") ∧
    (get_conversation_context
        (save_message emptyStore "s" "q" "a" "learning" none 1) "s" 1
      = String.intercalate "\n"
          (["RIWAYAT PERCAKAPAN SEBELUMNYA:"]
            ++ ["\nUser: " ++ "q", "Dico: " ++ "a"]
            ++ [contextFooter])) := by
  constructor
  · exact (get_conversation_context_spec emptyStore "s" 5).1 rfl
  · have h := (get_conversation_context_spec
        (save_message emptyStore "s" "q" "a" "learning" none 1)
        "s" 1).2 (by decide) (by decide)
    rw [h]
    rfl

theorem take_replicate_of_le {α : Type} (a : α) :
    ∀ n m, n ≤ m → (List.replicate m a).take n = List.replicate n a := by
  intro n
  induction n with
  | zero =>
    intro m _
    simp
  | succ k ih =>
    intro m hm
    cases m with
    | zero => omega
    | succ m' =>
      rw [List.replicate_succ, List.replicate_succ, List.take_succ_cons,
        ih m' (by omega)]

/-- Concrete check of the truncation branch: an answer of 501 characters
is cut to its first 500 characters plus the ellipsis marker. -/
theorem truncAnswer_long_example :
    truncAnswer (String.mk (List.replicate 501 'x'))
      = String.mk (List.replicate 500 'x') ++ "..." := by
  unfold truncAnswer
  have hdata : (String.mk (List.replicate 501 'x')).data
      = List.replicate 501 'x' := rfl
  rw [if_pos (by rw [hdata, List.length_replicate]; omega)]
  rw [hdata, take_replicate_of_le 'x' 500 501 (by omega)]

/-! ### LLM gateway (`src/rag/llm.py`, `ask_llm`)

The network boundary is modelled by an outcome per attempt; `ask_llm`
returns the result together with the list of backoff delays slept, in
order. -/

/-- The failures `ask_llm` can raise. -/
inductive LlmErr
  | contentBlocked
  | valueReraise
  | quotaExhausted
  | connExhausted
  | apiRetriesExhausted
  | apiError
  | unexpectedFailed
  | maxRetriesExceeded
deriving DecidableEq, Repr

/-- What a single `model.generate_content` call does on one attempt. -/
inductive Outcome
  | ok (text : String)
  | valueSafety
  | valueOther
  | rateLimited
  | transientConn
  | apiRetryable
  | apiNonRetryable
  | unexpected (retryableKeyword : Bool)
deriving DecidableEq, Repr

/-- Prefix a backoff delay onto the sleep list of a run. -/
def withSleep (d : Nat) (r : Except LlmErr String × List Nat) :
    Except LlmErr String × List Nat :=
  (r.1, d :: r.2)

/-- The retry loop of `ask_llm` (llm.py lines 40-128), indexed by the
current attempt and the number of loop iterations left
(`remaining = max_retries - attempt`); `remaining = 0` is the fall-through
raise after the loop.  Inside the loop the last attempt is
`attempt == max_retries - 1`, i.e. `remaining = 1`.  Every retried
transient branch sleeps `2 ** attempt + 1`; the non-keyword unexpected
branch sleeps `1`. -/
def askLlmGo (outcomes : Nat → Outcome) (attempt : Nat) :
    Nat → Except LlmErr String × List Nat
  | 0 => (.error .maxRetriesExceeded, [])
  | remaining + 1 =>
    match outcomes attempt with
    | .ok t => (.ok t, [])
    | .valueSafety => (.error .contentBlocked, [])
    | .valueOther => (.error .valueReraise, [])
    | .rateLimited =>
      if remaining = 0 then (.error .quotaExhausted, [])
      else withSleep (2 ^ attempt + 1) (askLlmGo outcomes (attempt + 1) remaining)
    | .transientConn =>
      if remaining = 0 then (.error .connExhausted, [])
      else withSleep (2 ^ attempt + 1) (askLlmGo outcomes (attempt + 1) remaining)
    | .apiRetryable =>
      if remaining = 0 then (.error .apiRetriesExhausted, [])
      else withSleep (2 ^ attempt + 1) (askLlmGo outcomes (attempt + 1) remaining)
    | .apiNonRetryable => (.error .apiError, [])
    | .unexpected kw =>
      if kw ∧ remaining ≠ 0 then
        withSleep (2 ^ attempt + 1) (askLlmGo outcomes (attempt + 1) remaining)
      else if remaining = 0 then (.error .unexpectedFailed, [])
      else withSleep 1 (askLlmGo outcomes (attempt + 1) remaining)

/-- `ask_llm` with `max_retries` attempts: the final result and the backoff
delays slept, in order. -/
def ask_llm (outcomes : Nat → Outcome) (max_retries : Nat) :
    Except LlmErr String × List Nat :=
  askLlmGo outcomes 0 max_retries

/-- An outcome retried with exponential backoff: rate limit, transient
connectivity/server error, retryable API error, or an unexpected error
whose message carries a retryable keyword. -/
def transientO (o : Outcome) : Prop :=
  o = .rateLimited ∨ o = .transientConn ∨ o = .apiRetryable ∨
    o = .unexpected true

/-- An outcome that `ask_llm` raises immediately. -/
def nonRetryableO (o : Outcome) : Prop :=
  o = .valueSafety ∨ o = .valueOther ∨ o = .apiNonRetryable

theorem askLlmGo_transient_run (outcomes : Nat → Outcome) (text : String) :
    ∀ (j attempt remaining : Nat), j < remaining →
    (∀ k, k < j → transientO (outcomes (attempt + k))) →
    outcomes (attempt + j) = .ok text →
    askLlmGo outcomes attempt remaining
      = (.ok text, (List.range' attempt j).map (fun k => 2 ^ k + 1)) := by
  intro j
  induction j with
  | zero =>
    intro attempt remaining hlt _ hok
    cases remaining with
    | zero => omega
    | succ s =>
      rw [Nat.add_zero] at hok
      unfold askLlmGo
      rw [hok]
      rfl
  | succ j ih =>
    intro attempt remaining hlt htr hok
    cases remaining with
    | zero => omega
    | succ s =>
      have hs : ¬ s = 0 := by omega
      have hrec := ih (attempt + 1) s (by omega)
        (fun k hk => by
          have := htr (k + 1) (by omega)
          rwa [(by omega : attempt + (k + 1) = attempt + 1 + k)] at this)
        (by rwa [(by omega : attempt + (j + 1) = attempt + 1 + j)] at hok)
      have h0 : transientO (outcomes attempt) := by
        have := htr 0 (by omega)
        rwa [Nat.add_zero] at this
      have hrange : List.range' attempt (j + 1)
          = attempt :: List.range' (attempt + 1) j := by
        rw [List.range'_succ]
      rcases h0 with h | h | h | h
      · unfold askLlmGo
        simp only [h]
        rw [if_neg hs, hrec]
        unfold withSleep
        rw [hrange]
        rfl
      · unfold askLlmGo
        simp only [h]
        rw [if_neg hs, hrec]
        unfold withSleep
        rw [hrange]
        rfl
      · unfold askLlmGo
        simp only [h]
        rw [if_neg hs, hrec]
        unfold withSleep
        rw [hrange]
        rfl
      · unfold askLlmGo
        simp only [h]
        rw [if_pos ⟨trivial, hs⟩, hrec]
        unfold withSleep
        rw [hrange]
        rfl

/-- C6 counterexample: with every attempt rate-limited (4 attempts), the
delays actually slept are 2s, 3s, 5s — `2 ^ k + 1` — and not the claimed
"2s, 5s, 9s" doubling pattern. -/
theorem ask_llm_backoff_counterexample :
    (ask_llm (fun _ => .rateLimited) 4).2 = [2, 3, 5] ∧
    ([2, 3, 5] : List Nat) ≠ [2, 5, 9] := by
  constructor
  · rfl
  · decide

/-- C6 (amended): the delay slept before retrying transient attempt `k`
(rate limit, transient connectivity/server error, retryable API error, or
retryable-keyword unexpected error — uniformly) is `2 ^ k + 1` seconds,
i.e. 2s, 3s, 5s, ...; non-retryable errors propagate immediately with no
sleep. -/
theorem ask_llm_backoff_spec :
    (∀ (outcomes : Nat → Outcome) (text : String) (j max_retries : Nat),
      j < max_retries →
      (∀ k, k < j → transientO (outcomes k)) →
      outcomes j = .ok text →
      ask_llm outcomes max_retries
        = (.ok text, (List.range j).map (fun k => 2 ^ k + 1))) ∧
    (∀ (outcomes : Nat → Outcome) (max_retries : Nat),
      nonRetryableO (outcomes 0) →
      (ask_llm outcomes max_retries).2 = [] ∧
      ∃ e, (ask_llm outcomes max_retries).1 = .error e) := by
  constructor
  · intro outcomes text j max_retries hlt htr hok
    unfold ask_llm
    rw [List.range_eq_range']
    exact askLlmGo_transient_run outcomes text j 0 max_retries hlt
      (fun k hk => by simpa using htr k hk) (by simpa using hok)
  · intro outcomes max_retries hnr
    unfold ask_llm
    cases max_retries with
    | zero => exact ⟨rfl, ⟨.maxRetriesExceeded, rfl⟩⟩
    | succ s =>
      rcases hnr with h | h | h
      · unfold askLlmGo
        rw [h]
        exact ⟨rfl, ⟨.contentBlocked, rfl⟩⟩
      · unfold askLlmGo
        rw [h]
        exact ⟨rfl, ⟨.valueReraise, rfl⟩⟩
      · unfold askLlmGo
        rw [h]
        exact ⟨rfl, ⟨.apiError, rfl⟩⟩

/-- C6 witness: one transient connection error then success sleeps exactly
`2 ^ 0 + 1 = 2` seconds; a safety-blocked response propagates with no
sleep. -/
theorem ask_llm_backoff_spec_witness :
    (ask_llm (fun k => if k = 0 then .transientConn else .ok "hi") 3
      = (.ok "hi", [2])) ∧
    (ask_llm (fun _ => .valueSafety) 3).2 = [] := by
  constructor
  · exact (ask_llm_backoff_spec.1 (fun k => if k = 0 then .transientConn else .ok "hi")
      "hi" 1 3 (by omega)
      (fun k hk => by
        have hk0 : k = 0 := by omega
        subst hk0
        exact Or.inr (Or.inl rfl))
      rfl).trans rfl
  · exact (ask_llm_backoff_spec.2 (fun _ => .valueSafety) 3
      (Or.inl rfl)).1

/-- C7: with the default 3 attempts, a rate-limit condition on the first
two attempts followed by success delivers the successful answer after
exactly two backoff sleeps, while a rate-limit condition on every attempt
ends in the quota-exhausted failure (after the same two sleeps) instead of
a further retry. -/
theorem ask_llm_rate_limit_scenarios (ans : String) :
    ask_llm (fun k => if k < 2 then .rateLimited else .ok ans) 3
      = (.ok ans, [2, 3]) ∧
    ask_llm (fun _ => .rateLimited) 3
      = (.error .quotaExhausted, [2, 3]) := by
  exact ⟨rfl, rfl⟩

/-! ### Router (`src/rag/pipeline.py`, `smart_answer`)

The classifier call and the three per-category handlers each boil down to
one LLM interaction whose outcome is passed in as an `Except` value; the
history store is threaded explicitly.  Raising an exception means
returning `.error` — in the source nothing after the raising line runs, so
the store component is returned unchanged. -/

/-- The string stored in the history record for a category. -/
def queryTypeStr : QueryType → String
  | .tracking => "tracking"
  | .learning => "learning"
  | .recommendation => "recommendation"

/-- The routing step of `smart_answer` (pipeline.py lines 56-69): which
handler result is used for each category. -/
def routeAnswer (qt : QueryType)
    (trackingRes recommendationRes learningRes : Except LlmErr String) :
    Except LlmErr String :=
  match qt with
  | .tracking => trackingRes
  | .recommendation => recommendationRes
  | .learning => learningRes

/-- `smart_answer` (pipeline.py lines 43-85): classify, route to the
matching handler, then — only when a session id was supplied and both
steps succeeded — persist the (query, answer, category) message.  Returns
the result (answer, category, session id) and the final store. -/
def smart_answer (classifyRes : Except LlmErr QueryType)
    (trackingRes recommendationRes learningRes : Except LlmErr String)
    (query : String) (session_id : Option String) (store : Store)
    (now : Nat) :
    Except LlmErr (String × QueryType × Option String) × Store :=
  match classifyRes with
  | .error e => (.error e, store)
  | .ok qt =>
    match routeAnswer qt trackingRes recommendationRes learningRes with
    | .error e => (.error e, store)
    | .ok answer =>
      match session_id with
      | none => (.ok (answer, qt, none), store)
      | some sid =>
        (.ok (answer, qt, some sid),
          save_message store sid query answer (queryTypeStr qt) none now)

/-- C2: `smart_answer` appends at most one message, and does so exactly
when a session id was supplied and both the classification and the routed
handler succeeded; on a missing session id or on either failure the store
is returned completely unchanged (no partial persistence). -/
theorem smart_answer_persistence (classifyRes : Except LlmErr QueryType)
    (trackingRes recommendationRes learningRes : Except LlmErr String)
    (query : String) (session_id : Option String) (store : Store)
    (now : Nat) :
    (session_id = none →
      (smart_answer classifyRes trackingRes recommendationRes learningRes
        query session_id store now).2 = store) ∧
    (∀ e, classifyRes = .error e →
      (smart_answer classifyRes trackingRes recommendationRes learningRes
        query session_id store now)
        = (.error e, store)) ∧
    (∀ qt e, classifyRes = .ok qt →
      routeAnswer qt trackingRes recommendationRes learningRes = .error e →
      (smart_answer classifyRes trackingRes recommendationRes learningRes
        query session_id store now)
        = (.error e, store)) ∧
    (∀ qt answer sid, classifyRes = .ok qt →
      routeAnswer qt trackingRes recommendationRes learningRes = .ok answer →
      session_id = some sid →
      (smart_answer classifyRes trackingRes recommendationRes learningRes
          query session_id store now).1 = .ok (answer, qt, some sid) ∧
      sessionMessages (smart_answer classifyRes trackingRes recommendationRes
          learningRes query session_id store now).2 sid
        = sessionMessages store sid
          ++ [{ timestamp := now, query := query, answer := answer,
                type := queryTypeStr qt, metadata := none }] ∧
      (∀ s, s ≠ sid →
        (smart_answer classifyRes trackingRes recommendationRes learningRes
          query session_id store now).2 s = store s)) := by
  refine ⟨?_, ?_, ?_, ?_⟩
  · intro hnone
    subst hnone
    cases classifyRes with
    | error e => rfl
    | ok qt =>
      cases hra : routeAnswer qt trackingRes recommendationRes learningRes with
      | error e =>
        simp only [smart_answer, hra]
      | ok answer =>
        simp only [smart_answer, hra]
  · intro e he
    subst he
    rfl
  · intro qt e hc hr
    subst hc
    simp only [smart_answer, hr]
  · intro qt answer sid hc hr hs
    subst hc
    subst hs
    simp only [smart_answer, hr]
    refine ⟨by trivial, ?_, ?_⟩
    · exact sessionMessages_save store sid query answer (queryTypeStr qt) none now
    · intro s hsne
      exact save_message_other store sid query answer (queryTypeStr qt) none now s hsne

/-- C2 witness: the theorem applied at a successful learning-category run
with session id "s" on the empty store — exactly the one message is
persisted — and at a classifier failure, which leaves the store unchanged. -/
theorem smart_answer_persistence_witness :
    (sessionMessages
        (smart_answer (.ok .learning) (.ok "t") (.ok "r") (.ok "ans")
          "q" (some "s") emptyStore 7).2 "s"
      = [{ timestamp := 7, query := "q", answer := "ans",
            type := "learning", metadata := none }]) ∧
    (smart_answer (.error .contentBlocked) (.ok "t") (.ok "r") (.ok "ans")
        "q" (some "s") emptyStore 7)
      = (.error .contentBlocked, emptyStore) := by
  constructor
  · exact (((smart_answer_persistence (.ok .learning) (.ok "t") (.ok "r")
      (.ok "ans") "q" (some "s") emptyStore 7).2.2.2 .learning "ans" "s"
      rfl rfl rfl).2.1).trans (by decide)
  · exact (smart_answer_persistence (.error .contentBlocked) (.ok "t")
      (.ok "r") (.ok "ans") "q" (some "s") emptyStore 7).2.1
      .contentBlocked rfl

/-! ### Recommendation engine (`src/rag/recommendation.py`,
`RecommendationEngine.get_recommended_courses`) and its catalog
(`src/rag/data_loader.py`, `DataLoader`)

JSON records become structures.  Python's `list.sort` is a stable in-place
sort; the in-place aspect matters because with no active filter the local
`courses` variable still aliases the loader's cached list, so the function
returns the (possibly re-sorted) loader state alongside its result. -/

/-- A course record from `data/courses.json`.  `learning_path_id` and
`course_level_str` are read with `.get`, hence optional. -/
structure Course where
  course_id : Nat
  course_name : String
  learning_path_id : Option Nat
  course_level_str : Option Nat
deriving DecidableEq, Repr

/-- A learning-path record. -/
structure LearningPath where
  learning_path_id : Nat
  learning_path_name : String
deriving DecidableEq, Repr

/-- A course-level record. -/
structure CourseLevel where
  id : Nat
  course_level : String
deriving DecidableEq, Repr

/-- The data loader's cached catalog. -/
structure DataLoader where
  courses : List Course
  learning_paths : List LearningPath
  course_levels : List CourseLevel
deriving DecidableEq, Repr

/-- A decorated course as returned by `get_recommended_courses`
(recommendation.py lines 81-88). -/
structure Recommendation where
  course_id : Nat
  course_name : String
  level_id : Nat
  level_name : String
  learning_path_id : Option Nat
  learning_path_name : String
deriving DecidableEq, Repr

/-- Python `s.lower()` of a Lean string, as code points. -/
def pyLowerStr (s : String) : List Nat := pyLower (strToCodes s)

/-- `RecommendationEngine.get_learning_path_by_name` (recommendation.py
lines 28-33): first path whose name matches case-insensitively. -/
def get_learning_path_by_name (dl : DataLoader) (path_name : String) :
    Option LearningPath :=
  dl.learning_paths.find?
    (fun p => pyLowerStr p.learning_path_name == pyLowerStr path_name)

/-- `DataLoader.get_level_by_id` via the `{l["id"]: l}` dictionary
(data_loader.py lines 83-87); on duplicate ids the last entry wins. -/
def get_level_by_id (dl : DataLoader) (level_id : Nat) : Option CourseLevel :=
  dl.course_levels.reverse.find? (fun l => l.id == level_id)

/-- `DataLoader.get_level_name` (data_loader.py lines 103-106). -/
def get_level_name (dl : DataLoader) (level_id : Nat) : String :=
  match get_level_by_id dl level_id with
  | some l => l.course_level
  | none => "Unknown"

/-- `DataLoader.get_learning_path_by_id` via the
`{p["learning_path_id"]: p}` dictionary (data_loader.py lines 77-81). -/
def get_learning_path_by_id (dl : DataLoader) (path_id : Nat) :
    Option LearningPath :=
  dl.learning_paths.reverse.find? (fun p => p.learning_path_id == path_id)

/-- `DataLoader.get_learning_path_name` (data_loader.py lines 108-111); a
missing course `learning_path_id` key gives "Unknown". -/
def get_learning_path_name (dl : DataLoader) (path_id : Option Nat) : String :=
  match path_id with
  | none => "Unknown"
  | some p =>
    match get_learning_path_by_id dl p with
    | some path => path.learning_path_name
    | none => "Unknown"

/-- The sort key `c.get("course_level_str", 1)` (recommendation.py
line 70). -/
def levelKey (c : Course) : Nat := c.course_level_str.getD 1

/-- `courses.sort(key=lambda c: c.get("course_level_str", 1))`: Python's
sort is stable; insertion sort on a total preorder is its model. -/
def sortPhase (cs : List Course) : List Course :=
  List.insertionSort (fun a b => levelKey a ≤ levelKey b) cs

/-- The learning-path filter step of `get_recommended_courses`
(recommendation.py lines 56-63).  Returns `none` for the early `return []`
when a non-empty path-name filter matches no learning path; otherwise the
course list together with a flag telling whether it is a fresh list (a
Python list comprehension) rather than the loader's cached list object. -/
def pathStep (dl : DataLoader) (learning_path_name : Option String) :
    Option (List Course × Bool) :=
  match learning_path_name with
  | none => some (dl.courses, false)
  | some s =>
    if s = "" then some (dl.courses, false)
    else
      match get_learning_path_by_name dl s with
      | some path =>
        some (dl.courses.filter
          (fun c => c.learning_path_id == some path.learning_path_id), true)
      | none => none

/-- The course-level filter step (recommendation.py lines 66-67), keeping
the freshness flag. -/
def levelStep (course_level : Option Nat) (cs1 : List Course)
    (fresh1 : Bool) : List Course × Bool :=
  match course_level with
  | none => (cs1, fresh1)
  | some k =>
    if k = 0 then (cs1, fresh1)
    else (cs1.filter (fun c => c.course_level_str == some k), true)

/-- Both filter steps of `get_recommended_courses` (recommendation.py
lines 53-67). -/
def filterPhase (dl : DataLoader) (learning_path_name : Option String)
    (course_level : Option Nat) : Option (List Course × Bool) :=
  match pathStep dl learning_path_name with
  | none => none
  | some (cs1, fresh1) => some (levelStep course_level cs1 fresh1)

/-- Decoration of one surviving course (recommendation.py lines 74-88). -/
def decorate (dl : DataLoader) (c : Course) : Recommendation :=
  { course_id := c.course_id, course_name := c.course_name,
    level_id := levelKey c, level_name := get_level_name dl (levelKey c),
    learning_path_id := c.learning_path_id,
    learning_path_name := get_learning_path_name dl c.learning_path_id }

/-- `RecommendationEngine.get_recommended_courses` (recommendation.py
lines 35-94), returning its result list and the loader state after the
call: the in-place sort hits the cached list exactly when both filters
were inactive. -/
def get_recommended_courses (dl : DataLoader)
    (learning_path_name : Option String) (course_level : Option Nat)
    (limit : Nat) : List Recommendation × DataLoader :=
  match filterPhase dl learning_path_name course_level with
  | none => ([], dl)
  | some (cs, fresh) =>
    (((sortPhase cs).take limit).map (decorate dl),
      if fresh then dl else { dl with courses := sortPhase cs })

/-- The Python truthiness of the `learning_path_name` argument. -/
def lpActive (lp : Option String) : Bool :=
  match lp with
  | some s => !(s == "")
  | none => false

/-- The Python truthiness of the `course_level` argument. -/
def lvlActive (lvl : Option Nat) : Bool :=
  match lvl with
  | some k => !(k == 0)
  | none => false

instance : IsTotal Course (fun a b => levelKey a ≤ levelKey b) :=
  ⟨fun a b => Nat.le_total (levelKey a) (levelKey b)⟩

instance : IsTrans Course (fun a b => levelKey a ≤ levelKey b) :=
  ⟨fun _ _ _ hab hbc => Nat.le_trans hab hbc⟩

theorem filter_orderedInsert_key (k : Nat) (a : Course) (l : List Course) :
    (List.orderedInsert (fun x y => levelKey x ≤ levelKey y) a l).filter
        (fun c => levelKey c == k)
      = if levelKey a = k
          then a :: l.filter (fun c => levelKey c == k)
          else l.filter (fun c => levelKey c == k) := by
  induction l with
  | nil =>
    by_cases h : levelKey a = k <;> simp [List.orderedInsert, h]
  | cons b t ih =>
    by_cases hr : levelKey a ≤ levelKey b
    · rw [List.orderedInsert, if_pos hr]
      by_cases h : levelKey a = k <;> simp [List.filter_cons, h]
    · rw [List.orderedInsert, if_neg hr]
      rw [List.filter_cons, List.filter_cons]
      by_cases h : levelKey a = k
      · have hbk : (levelKey b == k) = false := by
          simp only [beq_eq_false_iff_ne]
          omega
        rw [hbk, ih]
        simp [h]
      · rw [ih]
        simp [h]

theorem filter_sortPhase (cs : List Course) (k : Nat) :
    (sortPhase cs).filter (fun c => levelKey c == k)
      = cs.filter (fun c => levelKey c == k) := by
  induction cs with
  | nil => rfl
  | cons a t ih =>
    unfold sortPhase at ih ⊢
    rw [List.insertionSort, filter_orderedInsert_key, List.filter_cons]
    by_cases h : levelKey a = k
    · rw [if_pos h, ih, if_pos (by simp [h])]
    · rw [if_neg h, ih, if_neg (by simp [h])]

/-- Catalog used in the C5 scenario: three courses at levels [2, 1, 1],
all on one learning path. -/
def dlScenario : DataLoader :=
  { courses :=
      [{ course_id := 101, course_name := "Advanced ML",
          learning_path_id := some 1, course_level_str := some 2 },
       { course_id := 102, course_name := "Intro ML",
          learning_path_id := some 1, course_level_str := some 1 },
       { course_id := 103, course_name := "Basic Data",
          learning_path_id := some 1, course_level_str := some 1 }],
    learning_paths :=
      [{ learning_path_id := 1, learning_path_name := "Machine Learning" }],
    course_levels :=
      [{ id := 1, course_level := "Pemula" },
       { id := 2, course_level := "Menengah" }] }

/-- C5: `get_recommended_courses` returns at most `limit` courses; a
non-empty path filter matching no learning path (case-insensitively)
yields the empty list, not an error; results are sorted ascending by level
id; the sort is stable (per level, relative input order is preserved); and
on the scenario catalog with levels [2, 1, 1], a path filter matching all
three and `limit = 2`, the result is exactly the two level-1 courses in
input order, never the level-2 one. -/
theorem get_recommended_courses_spec :
    (∀ (dl : DataLoader) (lp : Option String) (lvl : Option Nat)
        (limit : Nat),
      ((get_recommended_courses dl lp lvl limit).1).length ≤ limit) ∧
    (∀ (dl : DataLoader) (s : String) (lvl : Option Nat) (limit : Nat),
      s ≠ "" → get_learning_path_by_name dl s = none →
      (get_recommended_courses dl (some s) lvl limit).1 = []) ∧
    (∀ (dl : DataLoader) (lp : Option String) (lvl : Option Nat)
        (limit : Nat),
      ((get_recommended_courses dl lp lvl limit).1).Pairwise
        (fun a b => a.level_id ≤ b.level_id)) ∧
    (∀ (cs : List Course) (k : Nat),
      (sortPhase cs).filter (fun c => levelKey c == k)
        = cs.filter (fun c => levelKey c == k)) ∧
    ((get_recommended_courses dlScenario (some "machine learning") none 2).1
      = [{ course_id := 102, course_name := "Intro ML", level_id := 1,
            level_name := "Pemula", learning_path_id := some 1,
            learning_path_name := "Machine Learning" },
         { course_id := 103, course_name := "Basic Data", level_id := 1,
            level_name := "Pemula", learning_path_id := some 1,
            learning_path_name := "Machine Learning" }]) := by
  refine ⟨?_, ?_, ?_, filter_sortPhase, by decide⟩
  · intro dl lp lvl limit
    cases hf : filterPhase dl lp lvl with
    | none => simp [get_recommended_courses, hf]
    | some p =>
      rcases p with ⟨cs, fresh⟩
      simp only [get_recommended_courses, hf]
      rw [List.length_map, List.length_take]
      exact Nat.min_le_left _ _
  · intro dl s lvl limit hs hnone
    have hps : pathStep dl (some s) = none := by
      simp only [pathStep]
      rw [if_neg hs, hnone]
    have hf : filterPhase dl (some s) lvl = none := by
      simp only [filterPhase, hps]
    simp [get_recommended_courses, hf]
  · intro dl lp lvl limit
    cases hf : filterPhase dl lp lvl with
    | none => simp [get_recommended_courses, hf]
    | some p =>
      rcases p with ⟨cs, fresh⟩
      simp only [get_recommended_courses, hf]
      have hsorted : (sortPhase cs).Pairwise
          (fun a b => levelKey a ≤ levelKey b) :=
        List.sorted_insertionSort (fun a b => levelKey a ≤ levelKey b) cs
      have htake : ((sortPhase cs).take limit).Pairwise
          (fun a b => levelKey a ≤ levelKey b) :=
        List.Pairwise.sublist (List.take_sublist limit (sortPhase cs)) hsorted
      rw [List.pairwise_map]
      exact List.Pairwise.imp (fun h => h) htake

/-- C5 witness: on the scenario catalog, the non-empty filter
"data science" matches no learning path and returns the empty list. -/
theorem get_recommended_courses_spec_witness :
    (get_recommended_courses dlScenario (some "data science") none 5).1
      = [] :=
  get_recommended_courses_spec.2.1 dlScenario "data science" none 5
    (by decide) (by decide)

theorem pathStep_inactive (dl : DataLoader) (lp : Option String)
    (hlp : lpActive lp = false) :
    pathStep dl lp = some (dl.courses, false) := by
  cases lp with
  | none => rfl
  | some s =>
    have hs : s = "" := by simpa [lpActive] using hlp
    subst hs
    simp only [pathStep]
    rw [if_pos trivial]

theorem pathStep_shape (dl : DataLoader) (lp : Option String) :
    (pathStep dl lp = none ∧ lpActive lp = true) ∨
    (∃ cs, pathStep dl lp = some (cs, lpActive lp)) := by
  cases lp with
  | none => exact Or.inr ⟨dl.courses, rfl⟩
  | some s =>
    by_cases hs : s = ""
    · subst hs
      refine Or.inr ⟨dl.courses, ?_⟩
      simp only [pathStep, lpActive]
      rw [if_pos trivial]
      simp
    · cases hp : get_learning_path_by_name dl s with
      | none =>
        refine Or.inl ⟨?_, by simp [lpActive, hs]⟩
        simp only [pathStep]
        rw [if_neg hs, hp]
      | some path =>
        refine Or.inr ⟨dl.courses.filter
          (fun c => c.learning_path_id == some path.learning_path_id), ?_⟩
        simp only [pathStep]
        rw [if_neg hs, hp]
        simp [lpActive, hs]

theorem levelStep_inactive (lvl : Option Nat) (cs1 : List Course)
    (fresh1 : Bool) (hlvl : lvlActive lvl = false) :
    levelStep lvl cs1 fresh1 = (cs1, fresh1) := by
  cases lvl with
  | none => rfl
  | some k =>
    have hk : k = 0 := by simpa [lvlActive] using hlvl
    subst hk
    simp only [levelStep]
    rw [if_pos trivial]

theorem levelStep_fresh (lvl : Option Nat) (cs1 : List Course)
    (fresh1 : Bool) :
    (levelStep lvl cs1 fresh1).2 = (fresh1 || lvlActive lvl) := by
  cases lvl with
  | none => simp [levelStep, lvlActive]
  | some k =>
    by_cases hk : k = 0
    · subst hk
      simp [levelStep, lvlActive]
    · simp [levelStep, lvlActive, hk]

theorem filterPhase_inactive (dl : DataLoader) (lp : Option String)
    (lvl : Option Nat) (hlp : lpActive lp = false)
    (hlvl : lvlActive lvl = false) :
    filterPhase dl lp lvl = some (dl.courses, false) := by
  simp only [filterPhase, pathStep_inactive dl lp hlp]
  rw [levelStep_inactive lvl dl.courses false hlvl]

theorem filterPhase_shape (dl : DataLoader) (lp : Option String)
    (lvl : Option Nat) :
    (filterPhase dl lp lvl = none ∧ lpActive lp = true) ∨
    (∃ cs, filterPhase dl lp lvl
      = some (cs, lpActive lp || lvlActive lvl)) := by
  rcases pathStep_shape dl lp with ⟨hps, hact⟩ | ⟨cs, hps⟩
  · left
    exact ⟨by simp only [filterPhase, hps], hact⟩
  · right
    refine ⟨(levelStep lvl cs (lpActive lp)).1, ?_⟩
    simp only [filterPhase, hps]
    congr 1
    rw [← levelStep_fresh lvl cs (lpActive lp)]

/-- A two-course catalog whose cached list is not yet sorted by level. -/
def dlMut : DataLoader :=
  { courses :=
      [{ course_id := 1, course_name := "x", learning_path_id := none,
          course_level_str := some 2 },
       { course_id := 2, course_name := "y", learning_path_id := none,
          course_level_str := some 1 }],
    learning_paths := [], course_levels := [] }

/-- C9 counterexample: a call to `get_recommended_courses` with no filters
sorts the loader's cached courses list in place, so the cached order after
the call differs from the order before it — the catalog is not left
unchanged by every call. -/
theorem catalog_mutation_counterexample :
    (get_recommended_courses dlMut none none 5).2.courses
      ≠ dlMut.courses := by
  decide

/-- C9 (amended): every call leaves the learning paths and course levels
unchanged and preserves the cached courses as a multiset (a permutation);
a call with an active (non-empty) path filter or an active level filter
leaves the cached courses list — including its order — unchanged; but a
call with no active filter replaces the cached order by its stable
level-ascending sort, because Python's in-place `list.sort` then runs on
the cached list object itself. -/
theorem catalog_frame_spec (dl : DataLoader) (lp : Option String)
    (lvl : Option Nat) (limit : Nat) :
    ((get_recommended_courses dl lp lvl limit).2.learning_paths
      = dl.learning_paths) ∧
    ((get_recommended_courses dl lp lvl limit).2.course_levels
      = dl.course_levels) ∧
    ((get_recommended_courses dl lp lvl limit).2.courses.Perm dl.courses) ∧
    (lpActive lp = true ∨ lvlActive lvl = true →
      (get_recommended_courses dl lp lvl limit).2.courses = dl.courses) ∧
    (lpActive lp = false → lvlActive lvl = false →
      (get_recommended_courses dl lp lvl limit).2.courses
        = sortPhase dl.courses) := by
  rcases filterPhase_shape dl lp lvl with ⟨hf, hact⟩ | ⟨cs, hf⟩
  · have hres : get_recommended_courses dl lp lvl limit = ([], dl) := by
      unfold get_recommended_courses
      rw [hf]
    rw [hres]
    refine ⟨rfl, rfl, List.Perm.refl _, fun _ => rfl, fun hlp _ => ?_⟩
    rw [hact] at hlp
    cases hlp
  · by_cases hb : (lpActive lp || lvlActive lvl) = true
    · rw [hb] at hf
      have hres : (get_recommended_courses dl lp lvl limit).2 = dl := by
        unfold get_recommended_courses
        rw [hf]
        rfl
      rw [hres]
      refine ⟨rfl, rfl, List.Perm.refl _, fun _ => rfl, fun hlp hlvl => ?_⟩
      rw [hlp, hlvl] at hb
      cases hb
    · have hor : (lpActive lp || lvlActive lvl) = false :=
        Bool.eq_false_iff.mpr hb
      have hlp : lpActive lp = false := (Bool.or_eq_false_iff.mp hor).1
      have hlvl : lvlActive lvl = false := (Bool.or_eq_false_iff.mp hor).2
      have hcs : cs = dl.courses := by
        have h1 := filterPhase_inactive dl lp lvl hlp hlvl
        rw [hf, hor] at h1
        have h2 : (cs, false) = (dl.courses, false) :=
          Option.some.injEq _ _ ▸ h1
        exact congrArg Prod.fst h2
      rw [hor] at hf
      have hres : (get_recommended_courses dl lp lvl limit).2
          = { dl with courses := sortPhase cs } := by
        unfold get_recommended_courses
        rw [hf]
        rfl
      rw [hres]
      subst hcs
      refine ⟨rfl, rfl, List.perm_insertionSort _ _, fun h => ?_, fun _ _ => rfl⟩
      rcases h with h | h
      · rw [h] at hlp
        cases hlp
      · rw [h] at hlvl
        cases hlvl

/-- C9 witness: on the concrete unsorted catalog a no-filter call leaves
paths and levels unchanged and re-sorts the cached courses, while a call
with an active path filter leaves the cached courses untouched. -/
theorem catalog_frame_spec_witness :
    ((get_recommended_courses dlMut none none 5).2.courses
      = sortPhase dlMut.courses) ∧
    ((get_recommended_courses dlScenario (some "machine learning") none 2).2.courses
      = dlScenario.courses) := by
  constructor
  · exact (catalog_frame_spec dlMut none none 5).2.2.2.2 rfl rfl
  · exact (catalog_frame_spec dlScenario (some "machine learning") none 2).2.2.2.1
      (Or.inl (by decide))

/-! ### Progress tracker (`src/rag/tracking.py`,
`ProgressTracker.get_progress_context`)

The statistics block (lines 80-115): counts, average progress and the
aggregate remaining-progress percentage.  Progress values are Python ints;
the two percentages are exact rationals. -/

/-- One course of the user's progress snapshot. -/
structure TrackCourse where
  course_name : String
  progress : Int
  deadline : Option String
deriving DecidableEq, Repr

/-- `completed_courses` (tracking.py line 82): progress exactly 100. -/
def completed_courses (cs : List TrackCourse) : Nat :=
  (cs.filter (fun c => c.progress == 100)).length

/-- `in_progress_courses` (tracking.py line 83): `0 < progress < 100`. -/
def in_progress_courses (cs : List TrackCourse) : List TrackCourse :=
  cs.filter (fun c => decide (0 < c.progress) && decide (c.progress < 100))

/-- `not_started` (tracking.py line 84). -/
def not_started (cs : List TrackCourse) : Int :=
  (cs.length : Int) - completed_courses cs - (in_progress_courses cs).length

/-- `avg_progress` (tracking.py lines 86-89). -/
def avg_progress (cs : List TrackCourse) : ℚ :=
  if 0 < cs.length
    then ((cs.map (fun c => c.progress)).sum : ℚ) / (cs.length : ℚ)
    else 0

/-- `remaining_progress` (tracking.py line 113). -/
def remaining_progress (cs : List TrackCourse) : Int :=
  (cs.map (fun c => 100 - c.progress)).sum

/-- `max_total` (tracking.py line 114). -/
def max_total (cs : List TrackCourse) : Nat := cs.length * 100

/-- `remaining_percent` (tracking.py line 115):
`sum(100 - progress) / (count * 100) * 100` when the denominator is
positive, else 0. -/
def remaining_percent (cs : List TrackCourse) : ℚ :=
  if 0 < max_total cs
    then (remaining_progress cs : ℚ) / (max_total cs : ℚ) * 100
    else 0

/-- The progress data of the C8 scenario: three courses with progress
100, 40 and 0. -/
def c8Data : List TrackCourse :=
  [{ course_name := "a", progress := 100, deadline := none },
   { course_name := "b", progress := 40, deadline := none },
   { course_name := "c", progress := 0, deadline := none }]

/-- C8: on progress values [100, 40, 0] the tracking statistics are 1
completed, 1 in progress, 1 not started; the average progress is exactly
140/3 (i.e. 46.7% to one decimal) and the remaining-progress —
`sum(100 - progress) / (count * 100) * 100` — is exactly 160/3
(i.e. 53.3% to one decimal). -/
theorem tracking_stats_scenario :
    completed_courses c8Data = 1 ∧
    (in_progress_courses c8Data).length = 1 ∧
    not_started c8Data = 1 ∧
    avg_progress c8Data = 140 / 3 ∧
    remaining_percent c8Data = 160 / 3 ∧
    round (avg_progress c8Data * 10) = 467 ∧
    round (remaining_percent c8Data * 10) = 533 := by
  refine ⟨by decide, by decide, by decide, ?_, ?_, ?_, ?_⟩
  · show avg_progress c8Data = 140 / 3
    norm_num [avg_progress, c8Data]
  · show remaining_percent c8Data = 160 / 3
    norm_num [remaining_percent, remaining_progress, max_total, c8Data]
  · have h : avg_progress c8Data = 140 / 3 := by
      norm_num [avg_progress, c8Data]
    rw [h]
    norm_num [round_eq]
  · have h : remaining_percent c8Data = 160 / 3 := by
      norm_num [remaining_percent, remaining_progress, max_total, c8Data]
    rw [h]
    norm_num [round_eq]

end DeployLlm
